import Mathlib

/-!
Verification development for the live dashboard notification layer of the
InterviewBit backend (`src/websockets/socket.service.ts`), together with the
pieces of `Utils/tokenUtils.ts` and `Api/Services/interview.service.ts`
(`getCandidateTranscript`) that the socket service calls.

The TypeScript code is shallowly embedded: async methods become pure
functions from an environment (token verifier + database content) and the
connection state to a trace of performed actions (sends, closes, room joins,
collaborator invocations).  JavaScript Maps/Sets backing the room registry
become association lists / duplicate-free lists with the same operations.
-/

namespace InterviewBit

/-- JavaScript truthiness for an optional string value: `null`/`undefined`
and the empty string are falsy. -/
def jsFalsyStr : Option String → Bool
  | none => true
  | some s => s = ""

/-! ## Token layer (`Utils/tokenUtils.ts`) -/

/-- The `tokenPayload` interface of `Schemas/auth.schema.ts`.  `_id` is a
Mongo ObjectId in the source; we model it as an optional string because the
decoded JWT payload is cast unchecked, so `_id` may be absent at runtime. -/
structure TokenPayload where
  _id : Option String
  email : Option String
  full_name : Option String
deriving DecidableEq

/-- Outcome of the external `jwt.verify` call inside
`TokenUtils.getDataFromToken`: it either raises (bad signature, expired,
malformed token) or returns a decoded value, which may be falsy. -/
inductive JwtOutcome
  | throws
  | returns (decoded : Option TokenPayload)
deriving DecidableEq

/-- The error classes of `Utils/ErrorClass.ts` that the embedded code
raises, each carrying its message. -/
inductive AppErr
  | notFound (msg : String)
  | forbidden (msg : String)
  | badRequest (msg : String)
  | unauthorized (msg : String)
deriving DecidableEq

/-- The `message` property of a raised error. -/
def AppErr.message : AppErr → String
  | .notFound m => m
  | .forbidden m => m
  | .badRequest m => m
  | .unauthorized m => m

/-- `TokenUtils.getDataFromToken` (`Utils/tokenUtils.ts`, lines 41-48):
runs `jwt.verify`; on success returns the decoded payload, or `null` when
the decoded value is falsy; when `jwt.verify` raises, the `catch` block
raises `UnauthorizedError('Invalid refresh token')` instead of returning
`null`. -/
def getDataFromToken (jwtVerify : String → JwtOutcome) (accessToken : String) :
    Except AppErr (Option TokenPayload) :=
  match jwtVerify accessToken with
  | .throws => .error (.unauthorized "Invalid refresh token")
  | .returns none => .ok none
  | .returns (some p) => .ok (some p)

/-! ## Database documents and queries -/

/-- The fields of an interview document used by the socket service. -/
structure Interview where
  interviewerId : String
  title : String
  status : String
  scheduled_start_time : String
  num_questions : Nat
deriving DecidableEq

/-- The fields of a candidate document used by the socket service. -/
structure Candidate where
  _id : String
  full_name : String
  email : String
  status : String
  interview_id : String
deriving DecidableEq

/-- The fields of a transcript document used by the socket service:
`submitted_at` is `none` when the transcript was never submitted. -/
structure Transcript where
  candidate_id : String
  submitted_at : Option String
deriving DecidableEq

/-- The persistence collaborator: interview documents keyed by id, plus the
candidate and transcript collections. -/
structure Db where
  interviews : List (String × Interview)
  candidates : List Candidate
  transcripts : List Transcript
deriving DecidableEq

/-- `InterviewModel.findById`. -/
def Db.findInterviewById (db : Db) (id : String) : Option Interview :=
  (db.interviews.find? (fun kv => kv.1 = id)).map (fun kv => kv.2)

/-- `CandidateModel.findById`. -/
def Db.findCandidateById (db : Db) (id : String) : Option Candidate :=
  db.candidates.find? (fun c => c._id = id)

/-- `CandidateModel.find({ interview_id: interviewId })`. -/
def Db.findCandidatesByInterview (db : Db) (interviewId : String) : List Candidate :=
  db.candidates.filter (fun c => c.interview_id = interviewId)

/-- `TranscriptModel.find({ candidate_id: candidateId })`. -/
def Db.findTranscriptsByCandidate (db : Db) (candidateId : String) : List Transcript :=
  db.transcripts.filter (fun t => t.candidate_id = candidateId)

/-- The aggregate of `sendInitialDashboardData` (lines 196-199): match the
transcripts whose `candidate_id` is among `candidateIds` and whose
`submitted_at` is non-null, then group by `candidate_id` with a count.
The result is one `(candidateId, answeredCount)` pair per distinct matched
candidate id. -/
def aggregateAnsweredCounts (transcripts : List Transcript) (candidateIds : List String) :
    List (String × Nat) :=
  let matched := transcripts.filter
    (fun t => candidateIds.contains t.candidate_id && t.submitted_at.isSome)
  let keys := (matched.map (fun t => t.candidate_id)).dedup
  keys.map (fun k => (k, (matched.filter (fun t => t.candidate_id = k)).length))

/-- Lookup in the `progressMap` built from the aggregate result. -/
def progressGet (progressData : List (String × Nat)) (candidateId : String) : Option Nat :=
  (progressData.find? (fun kv => kv.1 = candidateId)).map (fun kv => kv.2)

/-! ## Messages and actions -/

/-- The `interview` summary object inside the `dashboard:init` payload. -/
structure InterviewSummary where
  title : String
  status : String
  scheduled_start_time : String
  num_questions : Nat
deriving DecidableEq

/-- One entry of the `candidates` array inside the `dashboard:init`
payload; `progress` is the string ratio `"answered/num_questions"`. -/
structure CandidatePayload where
  _id : String
  full_name : String
  email : String
  status : String
  progress : String
deriving DecidableEq

/-- The `{candidate, transcripts}` result of `getCandidateTranscript`. -/
structure TranscriptData where
  candidate : Candidate
  transcripts : List Transcript
deriving DecidableEq

/-- Outbound message envelopes sent by the socket service. -/
inductive OutMessage
  | dashboardInit (interview : InterviewSummary) (candidates : List CandidatePayload)
  | responseCandidateDetails (data : TranscriptData)
  | error (message : String)
deriving DecidableEq

/-- Whether an outbound message is the `dashboard:init` event. -/
def OutMessage.isInit : OutMessage → Bool
  | .dashboardInit _ _ => true
  | _ => false

/-- `ws.readyState` of the underlying transport. -/
inductive ReadyState
  | CONNECTING
  | OPEN
  | CLOSING
  | CLOSED
deriving DecidableEq

/-- A connection admitted into the registry: the transport handle identity
plus the `interviewerId`/`interviewId` bound onto the `ws` object at
admission (`ExtWebSocket`). -/
structure Conn where
  cid : Nat
  interviewerId : String
  interviewId : String
deriving DecidableEq

/-- Observable actions performed by the service on behalf of a connection,
in program order. -/
inductive Action
  | close (code : Nat) (reason : String)
  | join (interviewId : String)
  | attachHandlers
  | send (m : OutMessage)
  | lookupTranscript (interviewId candidateId interviewerId : String)
deriving DecidableEq

/-- The outbound messages actually sent within a trace, in order. -/
def sends (trace : List Action) : List OutMessage :=
  trace.filterMap (fun a => match a with | .send m => some m | _ => none)

/-- The guarded send idiom `if (ws.readyState === WebSocket.OPEN) ws.send(...)`. -/
def sendIfOpen (rs : ReadyState) (m : OutMessage) : List Action :=
  if rs = ReadyState.OPEN then [Action.send m] else []

/-! ## Environment -/

/-- The collaborators of the socket service: the JWT verifier, the
database, and a flag modelling an infrastructure failure of the snapshot
queries (the `catch` of `sendInitialDashboardData`). -/
structure Env where
  jwtVerify : String → JwtOutcome
  db : Db
  snapshotFails : Bool

/-! ## interview.service.ts: getCandidateTranscript -/

/-- `InterviewService.getCandidateTranscript` (part_003, lines 416-435):
checks the interview exists, is owned by `interviewerId`, is neither
scheduled nor cancelled, and that the candidate exists and belongs to this
interview, then returns the candidate with its transcripts. -/
def getCandidateTranscript (db : Db) (interviewId candidateId interviewerId : String) :
    Except AppErr TranscriptData :=
  match db.findInterviewById interviewId with
  | none => .error (.notFound ("Interview with ID " ++ interviewId ++ " not found."))
  | some interview =>
    if interview.interviewerId ≠ interviewerId then
      .error (.forbidden "You are not authorized to access this interview.")
    else if interview.status = "Scheduled" then
      .error (.badRequest "Interview not started")
    else if interview.status = "Cancelled" then
      .error (.badRequest "Interview cancelled")
    else
      match db.findCandidateById candidateId with
      | none =>
        .error (.notFound ("Candidate with ID " ++ candidateId ++ " not found in this interview."))
      | some candidate =>
        if candidate.interview_id ≠ interviewId then
          .error (.notFound ("Candidate with ID " ++ candidateId ++ " not found in this interview."))
        else
          .ok ⟨candidate, db.findTranscriptsByCandidate candidateId⟩

/-! ## socket.service.ts -/

/-- The candidate payload array built by `sendInitialDashboardData`
(lines 195-212): per candidate, identity fields plus
`progress = (progressMap.get(id) || 0) + "/" + interview.num_questions`. -/
def buildCandidatePayload (db : Db) (interviewId : String) (interview : Interview) :
    List CandidatePayload :=
  let candidates := db.findCandidatesByInterview interviewId
  let progressData := aggregateAnsweredCounts db.transcripts (candidates.map (fun c => c._id))
  candidates.map (fun c =>
    { _id := c._id
      full_name := c.full_name
      email := c.email
      status := c.status
      progress := toString ((progressGet progressData c._id).getD 0) ++ "/"
        ++ toString interview.num_questions })

/-- The interview summary inside the `dashboard:init` payload. -/
def interviewSummary (interview : Interview) : InterviewSummary :=
  ⟨interview.title, interview.status, interview.scheduled_start_time, interview.num_questions⟩

/-- `sendInitialDashboardData` (lines 188-237): re-fetches the interview
(silently returning when absent), fetches candidates, aggregates answered
counts, and sends a single `dashboard:init` if the connection is open.  A
query failure (`env.snapshotFails`) lands in the `catch`, which sends an
`error` message instead. -/
def sendInitialDashboardData (env : Env) (interviewId : String) (rs : ReadyState) :
    List Action :=
  if env.snapshotFails then
    sendIfOpen rs (.error "Failed to load dashboard data")
  else
    match env.db.findInterviewById interviewId with
    | none => []
    | some interview =>
      sendIfOpen rs
        (.dashboardInit (interviewSummary interview) (buildCandidatePayload env.db interviewId interview))

/-- `handleConnection` (lines 99-148): parse `token`/`interviewId` from the
URL, fail (1008) if either is missing/empty; decode the token (a raised
verification error lands in the outer `catch`, closing 1011); fail (1008)
when the decoded value or its `_id` is falsy; fail (1008) when the
interview is absent or owned by someone else; otherwise bind the ids onto
the socket, join the room, attach the signal handlers and push the initial
dashboard data.  Returns the action trace and the admitted connection, if
any. -/
def handleConnection (env : Env) (cid : Nat) (token? interviewId? : Option String)
    (rs : ReadyState) : List Action × Option Conn :=
  if jsFalsyStr token? || jsFalsyStr interviewId? then
    ([Action.close 1008 "Missing token or interviewId"], none)
  else
    match token?, interviewId? with
    | some token, some interviewId =>
      match getDataFromToken env.jwtVerify token with
      | .error _ => ([Action.close 1011 "Internal server error during handshake"], none)
      | .ok decoded =>
        match decoded with
        | none => ([Action.close 1008 "Invalid authentication token"], none)
        | some payload =>
          if jsFalsyStr payload._id then
            ([Action.close 1008 "Invalid authentication token"], none)
          else
            match payload._id with
            | none => ([Action.close 1008 "Invalid authentication token"], none)
            | some uid =>
              match env.db.findInterviewById interviewId with
              | none => ([Action.close 1008 "Interview not found"], none)
              | some interview =>
                if interview.interviewerId ≠ uid then
                  ([Action.close 1008 "Unauthorized access to this interview"], none)
                else
                  (Action.join interviewId :: Action.attachHandlers
                      :: sendInitialDashboardData env interviewId rs,
                    some ⟨cid, uid, interviewId⟩)
    | _, _ => ([Action.close 1008 "Missing token or interviewId"], none)

/-- The `request:candidate_details` payload as received from the client;
any client-supplied `interviewId`/`interviewerId` fields are carried here
to show the service never reads them. -/
structure Payload where
  candidateId : Option String
  interviewId : Option String
  interviewerId : Option String
deriving DecidableEq

/-- `handleCandidateDetailsRequest` (lines 351-384): a falsy `candidateId`
raises, which the local `catch` answers with an `error` message; otherwise
the transcript lookup runs with the ids bound on the socket, and the result
(or the raised error's message) is sent back, guarded by `readyState`. -/
def handleCandidateDetailsRequest (db : Db) (conn : Conn) (payload : Payload)
    (rs : ReadyState) : List Action :=
  if jsFalsyStr payload.candidateId then
    sendIfOpen rs (.error "Could not load candidate details: candidateId missing from payload")
  else
    match payload.candidateId with
    | none => sendIfOpen rs (.error "Could not load candidate details: candidateId missing from payload")
    | some candidateId =>
      Action.lookupTranscript conn.interviewId candidateId conn.interviewerId ::
        match getCandidateTranscript db conn.interviewId candidateId conn.interviewerId with
        | .ok data => sendIfOpen rs (.responseCandidateDetails data)
        | .error e => sendIfOpen rs (.error ("Could not load candidate details: " ++ e.message))

/-- An inbound frame: either not parseable as JSON, or a parsed envelope
with an optional `event` tag and payload. -/
inductive RawMessage
  | malformed
  | parsed (event : Option String) (payload : Payload)
deriving DecidableEq

/-- The `message` listener installed by `setupSignalHandlers`
(lines 310-332): a JSON parse failure is caught and answered with
`error`/"Invalid message format" (guarded by `readyState`); a parsed
message is dispatched on its `event` tag; unknown tags are only logged. -/
def handleMessage (env : Env) (conn : Conn) (raw : RawMessage) (rs : ReadyState) :
    List Action :=
  match raw with
  | .malformed => sendIfOpen rs (.error "Invalid message format")
  | .parsed event payload =>
    if event = some "request:candidate_details" then
      handleCandidateDetailsRequest env.db conn payload rs
    else
      []

/-- The full life of one connection: the handshake, then — only when the
handshake admitted the connection and attached the listeners — the inbound
frames processed in arrival order. -/
def session (env : Env) (cid : Nat) (token? interviewId? : Option String)
    (rs : ReadyState) (inbox : List RawMessage) : List Action :=
  match handleConnection env cid token? interviewId? rs with
  | (trace, none) => trace
  | (trace, some conn) => trace ++ (inbox.map (fun raw => handleMessage env conn raw rs)).flatten

/-- The life of one connection with the listener-attach order of the
source made explicit (`handleConnection` lines 137-142): on the admitted
branch the room join and the signal-handler attachment happen before
`sendInitialDashboardData` is awaited, so inbound frames arriving while
the snapshot's database fetches are pending are handled — and answered —
before the `dashboard:init` send.  `early` holds the frames processed
during that window (each handled at one of the snapshot's suspension
points, its handler's sends emitted there — one realizable schedule of
the event loop), `late` the frames processed after the snapshot
completed.  On every denied branch no listener exists, so no frame is
processed at all. -/
def sessionSched (env : Env) (cid : Nat) (token? interviewId? : Option String)
    (rs : ReadyState) (early late : List RawMessage) : List Action :=
  match handleConnection env cid token? interviewId? rs with
  | (trace, none) => trace
  | (_, some conn) =>
    Action.join conn.interviewId :: Action.attachHandlers ::
      ((early.map (fun raw => handleMessage env conn raw rs)).flatten
        ++ sendInitialDashboardData env conn.interviewId rs
        ++ (late.map (fun raw => handleMessage env conn raw rs)).flatten)

/-! ## Room registry (`interviewRooms`) -/

/-- The room registry: the `Map<string, Set<ExtWebSocket>>` keyed by
interview id, as an association list of duplicate-free member lists. -/
abbrev Registry := List (String × List Conn)

/-- `Map.get`. -/
def roomsFind (rooms : Registry) (interviewId : String) : Option (List Conn) :=
  (rooms.find? (fun kv => kv.1 = interviewId)).map (fun kv => kv.2)

/-- Replacing the value stored under a key (a `Set` mutated in place). -/
def roomsSet (rooms : Registry) (interviewId : String) (room : List Conn) : Registry :=
  rooms.map (fun kv => if kv.1 = interviewId then (interviewId, room) else kv)

/-- `Map.delete`. -/
def roomsDelete (rooms : Registry) (interviewId : String) : Registry :=
  rooms.filter (fun kv => kv.1 ≠ interviewId)

/-- `Set.add`: inserts unless already a member. -/
def setAdd (room : List Conn) (ws : Conn) : List Conn :=
  if ws ∈ room then room else room ++ [ws]

/-- `Set.delete`: removes the membership of `ws` (a JS `Set` holds at most
one). -/
def setDelete (room : List Conn) (ws : Conn) : List Conn :=
  room.filter (fun x => x ≠ ws)

/-- `joinRoom` (lines 250-255): create the set if the key is absent, then
add the socket. -/
def joinRoom (rooms : Registry) (interviewId : String) (ws : Conn) : Registry :=
  match roomsFind rooms interviewId with
  | none => rooms ++ [(interviewId, setAdd [] ws)]
  | some room => roomsSet rooms interviewId (setAdd room ws)

/-- `leaveRoom` (lines 268-277): no-op when the key is absent; otherwise
delete the member and drop the key when the room becomes empty. -/
def leaveRoom (rooms : Registry) (interviewId : String) (ws : Conn) : Registry :=
  match roomsFind rooms interviewId with
  | none => rooms
  | some room =>
    let room2 := setDelete room ws
    if room2.length = 0 then roomsDelete rooms interviewId
    else roomsSet rooms interviewId room2

/-- A join or leave operation on the registry. -/
inductive RoomOp
  | join (interviewId : String) (ws : Conn)
  | leave (interviewId : String) (ws : Conn)
deriving DecidableEq

/-- Apply one registry operation. -/
def applyOp (rooms : Registry) : RoomOp → Registry
  | .join interviewId ws => joinRoom rooms interviewId ws
  | .leave interviewId ws => leaveRoom rooms interviewId ws

/-- Apply a sequence of registry operations starting from the empty
registry. -/
def applyOps (ops : List RoomOp) : Registry :=
  ops.foldl applyOp []

/-! ## System-level state machine (registry driven by connection events) -/

/-- A system event: a connection attempt (a fresh socket with its URL
parameters) or the `close` event of a socket. -/
inductive SysEvent
  | connect (cid : Nat) (token? interviewId? : Option String) (rs : ReadyState)
  | disconnect (ws : Conn)

/-- One step of the service: `connect` runs `handleConnection` and joins
the room exactly when admission succeeded; `disconnect` runs the `close`
listener, which leaves the room recorded on the socket. -/
def sysStep (env : Env) (rooms : Registry) : SysEvent → Registry
  | .connect cid token? interviewId? rs =>
    match (handleConnection env cid token? interviewId? rs).2 with
    | none => rooms
    | some conn => joinRoom rooms conn.interviewId conn
  | .disconnect ws => leaveRoom rooms ws.interviewId ws

/-- The registry after a sequence of system events from startup. -/
def sysRun (env : Env) (events : List SysEvent) : Registry :=
  events.foldl (sysStep env) []

/-! ## Specification-side characterizations and concrete fixtures -/

/-- Whether an outbound message is an `error` envelope. -/
def OutMessage.isError : OutMessage → Bool
  | .error _ => true
  | _ => false

/-- Whether a transcript lookup produced data (as opposed to raising). -/
def lookupSucceeded : Except AppErr TranscriptData → Bool
  | .ok _ => true
  | .error _ => false

/-- Specification-side count of a candidate's submitted transcripts: the
transcripts bearing this candidate's id whose `submitted_at` is non-null. -/
def submittedCount (db : Db) (candidateId : String) : Nat :=
  (db.transcripts.filter (fun t => t.candidate_id = candidateId && t.submitted_at.isSome)).length

/-- A demo interview owned by interviewer `alice` with five questions. -/
def interviewDemo : Interview :=
  ⟨"alice", "Frontend Hiring", "In Progress", "2026-01-05T10:00", 5⟩

/-- A second demo interview owned by a different interviewer. -/
def interviewOther : Interview :=
  ⟨"carol", "Backend Hiring", "In Progress", "2026-02-01T09:00", 4⟩

/-- A demo candidate of `interview-1`. -/
def candDemo : Candidate :=
  ⟨"cand-1", "Bob Roe", "bob@example.com", "Active", "interview-1"⟩

/-- A demo candidate of the other interview `interview-2`. -/
def candOther : Candidate :=
  ⟨"cand-9", "Eve Moss", "eve@example.com", "Active", "interview-2"⟩

/-- Demo transcripts: three submitted and two unsubmitted for `cand-1`. -/
def transcriptsDemo : List Transcript :=
  [⟨"cand-1", some "a1"⟩, ⟨"cand-1", some "a2"⟩, ⟨"cand-1", some "a3"⟩,
   ⟨"cand-1", none⟩, ⟨"cand-1", none⟩]

/-- The demo database holding both interviews, both candidates and the
demo transcripts. -/
def dbDemo : Db :=
  ⟨[("interview-1", interviewDemo), ("interview-2", interviewOther)],
   [candDemo, candOther], transcriptsDemo⟩

/-- A demo verifier: `good-token` decodes to `alice`, `intruder-token`
decodes to `mallory`, `empty-id-token` decodes to a payload without a
subject id, and everything else fails verification (raises). -/
def verifierDemo : String → JwtOutcome := fun t =>
  if t = "good-token" then .returns (some ⟨some "alice", none, none⟩)
  else if t = "intruder-token" then .returns (some ⟨some "mallory", none, none⟩)
  else if t = "empty-id-token" then .returns (some ⟨none, none, none⟩)
  else .throws

/-- The demo environment. -/
def envDemo : Env := ⟨verifierDemo, dbDemo, false⟩

/-- A demo admitted connection bound to `alice` and `interview-1`. -/
def connDemo : Conn := ⟨0, "alice", "interview-1"⟩

/-- First demo room member. -/
def connA : Conn := ⟨1, "alice", "interview-1"⟩

/-- Second demo room member. -/
def connB : Conn := ⟨2, "alice", "interview-1"⟩

/-! ## Theorems -/

/-- C1 (code bug): on a token that fails verification, `getDataFromToken`
raises `UnauthorizedError` instead of returning `null`, so
`handleConnection`'s outer catch closes the connection with 1011
"Internal server error during handshake" — not with 1008
"Invalid authentication token" as the claim states.  The 1008 branch is
reached only when verification succeeds but yields no subject identity
(third conjunct). -/
theorem C1_token_verification_failure_closes_1011 :
    getDataFromToken envDemo.jwtVerify "expired-token"
        = Except.error (AppErr.unauthorized "Invalid refresh token")
    ∧ (handleConnection envDemo 0 (some "expired-token") (some "interview-1") ReadyState.OPEN).1
        = [Action.close 1011 "Internal server error during handshake"]
    ∧ (handleConnection envDemo 0 (some "empty-id-token") (some "interview-1") ReadyState.OPEN).1
        = [Action.close 1008 "Invalid authentication token"] :=
  ⟨rfl, rfl, rfl⟩

/-- C7: an inbound frame that is not parseable as JSON is answered, on an
open connection, by exactly one outbound `error` message with text
"Invalid message format" and nothing else — in particular no close action
is produced, and the connection stays in the room. -/
theorem C7_malformed_message_single_error (env : Env) (conn : Conn) :
    handleMessage env conn RawMessage.malformed ReadyState.OPEN
      = [Action.send (OutMessage.error "Invalid message format")] :=
  rfl

/-- The key deleted by `roomsDelete` is no longer found. -/
theorem roomsFind_roomsDelete (rooms : Registry) (interviewId : String) :
    roomsFind (roomsDelete rooms interviewId) interviewId = none := by
  have h : (roomsDelete rooms interviewId).find? (fun kv => kv.1 = interviewId) = none := by
    apply List.find?_eq_none.mpr
    intro kv hkv
    have h2 := (List.mem_filter.mp hkv).2
    simpa using h2
  unfold roomsFind
  rw [h]
  rfl

/-- After `roomsSet`, the key is found with the new value, provided it was
present before. -/
theorem roomsFind_roomsSet (rooms : Registry) (interviewId : String)
    (room newRoom : List Conn) (h : roomsFind rooms interviewId = some room) :
    roomsFind (roomsSet rooms interviewId newRoom) interviewId = some newRoom := by
  induction rooms with
  | nil => simp [roomsFind] at h
  | cons kv rest ih =>
    by_cases hk : kv.1 = interviewId
    · simp [roomsFind, roomsSet, List.find?, hk]
    · have h' : roomsFind rest interviewId = some room := by
        simpa [roomsFind, List.find?, hk] using h
      have := ih h'
      simpa [roomsFind, roomsSet, List.find?, hk] using this

/-- Setting the same value twice is the same as setting it once. -/
theorem roomsSet_idem (rooms : Registry) (interviewId : String) (room : List Conn) :
    roomsSet (roomsSet rooms interviewId room) interviewId room
      = roomsSet rooms interviewId room := by
  unfold roomsSet
  rw [List.map_map]
  apply List.map_congr_left
  intro kv _
  by_cases hk : kv.1 = interviewId <;> simp [Function.comp, hk]

/-- Deleting a member twice from a room is the same as deleting it once. -/
theorem setDelete_idem (room : List Conn) (ws : Conn) :
    setDelete (setDelete room ws) ws = setDelete room ws := by
  unfold setDelete
  rw [List.filter_filter]
  apply List.filter_congr
  intro x _
  simp

/-- C8: `leaveRoom` is idempotent on every registry state: a second
`leaveRoom` with the same interview id and connection returns the registry
unchanged (a no-op whether the key was removed by the first call or the
member is simply absent). -/
theorem C8_leaveRoom_idempotent (rooms : Registry) (interviewId : String) (ws : Conn) :
    leaveRoom (leaveRoom rooms interviewId ws) interviewId ws
      = leaveRoom rooms interviewId ws := by
  cases h : roomsFind rooms interviewId with
  | none => simp [leaveRoom, h]
  | some room =>
    by_cases hz : (setDelete room ws).length = 0
    · have h1 : leaveRoom rooms interviewId ws = roomsDelete rooms interviewId := by
        simp [leaveRoom, h, hz]
      rw [h1]
      simp [leaveRoom, roomsFind_roomsDelete]
    · have h1 : leaveRoom rooms interviewId ws
          = roomsSet rooms interviewId (setDelete room ws) := by
        simp [leaveRoom, h, hz]
      rw [h1]
      have h2 := roomsFind_roomsSet rooms interviewId room (setDelete room ws) h
      simp [leaveRoom, h2, setDelete_idem, hz, roomsSet_idem]

/-- Adding a member never produces an empty room. -/
theorem setAdd_ne_nil (room : List Conn) (ws : Conn) : setAdd room ws ≠ [] := by
  unfold setAdd
  by_cases h : ws ∈ room
  · simp only [if_pos h]
    exact List.ne_nil_of_mem h
  · simp [if_neg h]

/-- An entry of `roomsSet` either carries the new value or was in the
registry before. -/
theorem mem_roomsSet (rooms : Registry) (interviewId : String) (v : List Conn)
    (kv : String × List Conn) (h : kv ∈ roomsSet rooms interviewId v) :
    kv.2 = v ∨ kv ∈ rooms := by
  unfold roomsSet at h
  obtain ⟨kv', hkv', heq⟩ := List.mem_map.mp h
  by_cases hk : kv'.1 = interviewId
  · left
    rw [← heq]
    simp [hk]
  · right
    rw [← heq]
    simp only [if_neg hk]
    exact hkv'

/-- A single join or leave keeps every room of the registry non-empty. -/
theorem applyOp_preserves_nonEmpty (rooms : Registry) (op : RoomOp)
    (h : ∀ kv ∈ rooms, kv.2 ≠ []) : ∀ kv ∈ applyOp rooms op, kv.2 ≠ [] := by
  intro kv hkv
  cases op with
  | join interviewId ws =>
    cases hf : roomsFind rooms interviewId with
    | none =>
      simp only [applyOp, joinRoom, hf] at hkv
      rcases List.mem_append.mp hkv with h1 | h1
      · exact h kv h1
      · have h2 : kv = (interviewId, setAdd [] ws) := List.mem_singleton.mp h1
        rw [h2]
        exact setAdd_ne_nil [] ws
    | some room =>
      simp only [applyOp, joinRoom, hf] at hkv
      rcases mem_roomsSet rooms interviewId (setAdd room ws) kv hkv with h1 | h1
      · rw [h1]
        exact setAdd_ne_nil room ws
      · exact h kv h1
  | leave interviewId ws =>
    cases hf : roomsFind rooms interviewId with
    | none =>
      simp only [applyOp, leaveRoom, hf] at hkv
      exact h kv hkv
    | some room =>
      simp only [applyOp, leaveRoom, hf] at hkv
      by_cases hz : (setDelete room ws).length = 0
      · rw [if_pos hz] at hkv
        exact h kv (List.mem_filter.mp hkv).1
      · rw [if_neg hz] at hkv
        rcases mem_roomsSet rooms interviewId (setDelete room ws) kv hkv with h1 | h1
        · rw [h1]
          intro hnil
          rw [hnil] at hz
          exact hz rfl
        · exact h kv h1

/-- Folding registry operations from a state with no empty rooms keeps
every room non-empty. -/
theorem foldl_applyOp_nonEmpty (ops : List RoomOp) :
    ∀ rooms : Registry, (∀ kv ∈ rooms, kv.2 ≠ []) →
      ∀ kv ∈ ops.foldl applyOp rooms, kv.2 ≠ [] := by
  induction ops with
  | nil =>
    intro rooms h kv hkv
    exact h kv hkv
  | cons op rest ih =>
    intro rooms h kv hkv
    simp only [List.foldl_cons] at hkv
    exact ih (applyOp rooms op) (applyOp_preserves_nonEmpty rooms op h) kv hkv

/-- C5: the registry never contains an empty room — after any sequence of
join and leave operations from startup, every key present maps to a
non-empty member list; and concretely, joining two connections under the
same interview id yields a room of size 2, leaving one yields size 1, and
leaving both removes the key (the registry is empty again). -/
theorem C5_registry_no_empty_rooms :
    (∀ ops : List RoomOp, ∀ kv ∈ applyOps ops, kv.2 ≠ [])
    ∧ (roomsFind (joinRoom (joinRoom [] "interview-1" connA) "interview-1" connB)
        "interview-1").map List.length = some 2
    ∧ (roomsFind (leaveRoom (joinRoom (joinRoom [] "interview-1" connA) "interview-1" connB)
        "interview-1" connA) "interview-1").map List.length = some 1
    ∧ leaveRoom (leaveRoom (joinRoom (joinRoom [] "interview-1" connA) "interview-1" connB)
        "interview-1" connA) "interview-1" connB = [] := by
  refine ⟨?_, by decide, by decide, by decide⟩
  intro ops kv hkv
  have hstart : ∀ kv ∈ ([] : Registry), kv.2 ≠ [] := by
    intro kv h
    simp at h
  exact foldl_applyOp_nonEmpty ops [] hstart kv hkv

/-- Witness for C5 at a concrete operation sequence: the singleton room
created by one join is a present key with a non-empty member list. -/
theorem C5_registry_no_empty_rooms_witness :
    (("interview-1", [connA]) ∈ applyOps [RoomOp.join "interview-1" connA])
    ∧ ("interview-1", [connA]).2 ≠ ([] : List Conn) :=
  ⟨by decide, C5_registry_no_empty_rooms.1 [RoomOp.join "interview-1" connA]
    ("interview-1", [connA]) (by decide)⟩

/-- `find?` over key-value pairs built from a list of keys returns the
entry of the first occurrence of the key. -/
theorem find?_map_keys (g : String → Nat) (ks : List String) (cid : String)
    (hc : cid ∈ ks) :
    (ks.map (fun k => (k, g k))).find? (fun kv => kv.1 = cid) = some (cid, g cid) := by
  induction ks with
  | nil => cases hc
  | cons k rest ih =>
    by_cases hk : k = cid
    · subst hk
      simp [List.find?]
    · have hc' : cid ∈ rest := by
        rcases List.mem_cons.mp hc with h1 | h1
        · exact absurd h1.symm hk
        · exact h1
      simpa [List.find?, hk] using ih hc'

/-- `find?` over key-value pairs misses keys that are not in the list. -/
theorem find?_map_keys_none (g : String → Nat) (ks : List String) (cid : String)
    (hc : cid ∉ ks) :
    (ks.map (fun k => (k, g k))).find? (fun kv => kv.1 = cid) = none := by
  apply List.find?_eq_none.mpr
  intro kv hkv
  obtain ⟨k, hk, heq⟩ := List.mem_map.mp hkv
  rw [← heq]
  simp only [decide_eq_true_eq]
  intro h1
  exact hc (h1 ▸ hk)

/-- Restricting the aggregate's matched transcripts to one candidate of the
queried set gives exactly that candidate's submitted transcripts. -/
theorem matched_filter_eq (ts : List Transcript) (cids : List String) (cid : String)
    (hc : cid ∈ cids) :
    (ts.filter (fun t => cids.contains t.candidate_id && t.submitted_at.isSome)).filter
        (fun t => t.candidate_id = cid)
      = ts.filter (fun t => t.candidate_id = cid && t.submitted_at.isSome) := by
  rw [List.filter_filter]
  apply List.filter_congr
  intro t _
  by_cases ht : t.candidate_id = cid
  · simp [ht, hc]
  · simp [ht]

/-- The dashboard's `progressMap.get(id) || 0` equals the count of this
candidate's submitted transcripts, defaulting to 0 when the candidate is
absent from the aggregate result. -/
theorem aggregate_lookup (ts : List Transcript) (cids : List String) (cid : String)
    (hc : cid ∈ cids) :
    (progressGet (aggregateAnsweredCounts ts cids) cid).getD 0
      = (ts.filter (fun t => t.candidate_id = cid && t.submitted_at.isSome)).length := by
  simp only [aggregateAnsweredCounts, progressGet]
  set matched := ts.filter (fun t => cids.contains t.candidate_id && t.submitted_at.isSome)
    with hm
  by_cases hk : cid ∈ (matched.map (fun t => t.candidate_id)).dedup
  · rw [find?_map_keys (fun k => (matched.filter (fun t => t.candidate_id = k)).length)
      _ _ hk]
    show (matched.filter (fun t => t.candidate_id = cid)).length = _
    rw [hm, matched_filter_eq ts cids cid hc]
  · rw [find?_map_keys_none (fun k => (matched.filter (fun t => t.candidate_id = k)).length)
      _ _ hk]
    have hnil : ts.filter (fun t => t.candidate_id = cid && t.submitted_at.isSome) = [] := by
      rw [← matched_filter_eq ts cids cid hc, ← hm]
      apply List.filter_eq_nil_iff.mpr
      intro t ht
      simp only [decide_eq_true_eq]
      intro h1
      exact hk (List.mem_dedup.mpr (List.mem_map.mpr ⟨t, ht, h1⟩))
    rw [hnil]
    rfl

/-- C6: for each candidate of the interview, the dashboard snapshot holds
an entry whose `progress` string is "k/N" where k is the number of that
candidate's transcripts with a non-null `submitted_at` (0 when absent from
the aggregate) and N is the interview's `num_questions`; and the snapshot
is delivered as a single `dashboard:init` send. -/
theorem C6_progress_ratio (env : Env) (interviewId : String) (interview : Interview)
    (c : Candidate) (hsf : env.snapshotFails = false)
    (hfind : env.db.findInterviewById interviewId = some interview)
    (hc : c ∈ env.db.findCandidatesByInterview interviewId) :
    sendInitialDashboardData env interviewId ReadyState.OPEN
      = [Action.send (OutMessage.dashboardInit (interviewSummary interview)
          (buildCandidatePayload env.db interviewId interview))]
    ∧ ({ _id := c._id, full_name := c.full_name, email := c.email, status := c.status,
          progress := toString (submittedCount env.db c._id) ++ "/"
            ++ toString interview.num_questions } : CandidatePayload)
        ∈ buildCandidatePayload env.db interviewId interview := by
  constructor
  · simp [sendInitialDashboardData, hsf, hfind, sendIfOpen]
  · simp only [buildCandidatePayload]
    apply List.mem_map.mpr
    refine ⟨c, hc, ?_⟩
    have hcid : c._id ∈ (env.db.findCandidatesByInterview interviewId).map
        (fun c => c._id) :=
      List.mem_map.mpr ⟨c, hc, rfl⟩
    have := aggregate_lookup env.db.transcripts
      ((env.db.findCandidatesByInterview interviewId).map (fun c => c._id)) c._id hcid
    simp only [this]
    rfl

/-- Witness for C6 at the demo database: the candidate with three
submitted and two unsubmitted transcripts in a five-question interview
gets progress "3/5". -/
theorem C6_progress_ratio_witness :
    envDemo.snapshotFails = false
    ∧ envDemo.db.findInterviewById "interview-1" = some interviewDemo
    ∧ candDemo ∈ envDemo.db.findCandidatesByInterview "interview-1"
    ∧ toString (submittedCount envDemo.db candDemo._id) ++ "/"
        ++ toString interviewDemo.num_questions = "3/5"
    ∧ (sendInitialDashboardData envDemo "interview-1" ReadyState.OPEN
        = [Action.send (OutMessage.dashboardInit (interviewSummary interviewDemo)
            (buildCandidatePayload envDemo.db "interview-1" interviewDemo))]
      ∧ ({ _id := candDemo._id, full_name := candDemo.full_name, email := candDemo.email,
            status := candDemo.status,
            progress := toString (submittedCount envDemo.db candDemo._id) ++ "/"
              ++ toString interviewDemo.num_questions } : CandidatePayload)
          ∈ buildCandidatePayload envDemo.db "interview-1" interviewDemo) :=
  ⟨rfl, rfl, by decide, by decide,
    C6_progress_ratio envDemo "interview-1" interviewDemo candDemo rfl rfl (by decide)⟩

/-- C3: the transcript lookup of a `request:candidate_details` message is
invoked with the connection's bound interview id and identity — the head
of the handler trace records the call arguments, which depend on no field
of the client payload other than `candidateId` — and a `candidateId`
belonging to a different interview than the bound one makes the lookup
fail with a not-found error, so the handler sends only `error` messages
and never a `response:candidate_details`. -/
theorem C3_lookup_uses_bound_ids (db : Db) (conn : Conn) (payload : Payload)
    (rs : ReadyState) (cid : String) (interview : Interview) (cand : Candidate)
    (hcid : payload.candidateId = some cid) (hne : cid ≠ "")
    (hitv : db.findInterviewById conn.interviewId = some interview)
    (howner : interview.interviewerId = conn.interviewerId)
    (hs1 : interview.status ≠ "Scheduled") (hs2 : interview.status ≠ "Cancelled")
    (hcand : db.findCandidateById cid = some cand)
    (hdiff : cand.interview_id ≠ conn.interviewId) :
    (handleCandidateDetailsRequest db conn payload rs).head?
        = some (Action.lookupTranscript conn.interviewId cid conn.interviewerId)
    ∧ getCandidateTranscript db conn.interviewId cid conn.interviewerId
        = Except.error (AppErr.notFound
            ("Candidate with ID " ++ cid ++ " not found in this interview."))
    ∧ lookupSucceeded (getCandidateTranscript db conn.interviewId cid conn.interviewerId)
        = false
    ∧ (sends (handleCandidateDetailsRequest db conn payload rs)).all OutMessage.isError
        = true := by
  have hg : getCandidateTranscript db conn.interviewId cid conn.interviewerId
      = Except.error (AppErr.notFound
          ("Candidate with ID " ++ cid ++ " not found in this interview.")) := by
    simp [getCandidateTranscript, hitv, howner, hs1, hs2, hcand, hdiff]
  have htr : handleCandidateDetailsRequest db conn payload rs
      = Action.lookupTranscript conn.interviewId cid conn.interviewerId ::
          sendIfOpen rs (.error ("Could not load candidate details: "
            ++ ("Candidate with ID " ++ cid ++ " not found in this interview."))) := by
    simp [handleCandidateDetailsRequest, hcid, jsFalsyStr, hne, hg, AppErr.message]
  refine ⟨?_, hg, ?_, ?_⟩
  · rw [htr]
    rfl
  · rw [hg]
    rfl
  · rw [htr]
    by_cases hrs : rs = ReadyState.OPEN <;>
      simp [sends, sendIfOpen, hrs, OutMessage.isError]

/-- Witness for C3: on the demo database, a connection bound to
`interview-1` requesting candidate `cand-9` of `interview-2` (while the
payload even claims `interview-2`/`mallory`) triggers a lookup with the
bound ids and a not-found failure. -/
theorem C3_lookup_uses_bound_ids_witness :
    (Payload.mk (some "cand-9") (some "interview-2") (some "mallory")).candidateId
        = some "cand-9"
    ∧ dbDemo.findInterviewById connDemo.interviewId = some interviewDemo
    ∧ interviewDemo.interviewerId = connDemo.interviewerId
    ∧ dbDemo.findCandidateById "cand-9" = some candOther
    ∧ candOther.interview_id ≠ connDemo.interviewId
    ∧ ((handleCandidateDetailsRequest dbDemo connDemo
          (Payload.mk (some "cand-9") (some "interview-2") (some "mallory"))
          ReadyState.OPEN).head?
        = some (Action.lookupTranscript connDemo.interviewId "cand-9" connDemo.interviewerId)
      ∧ getCandidateTranscript dbDemo connDemo.interviewId "cand-9" connDemo.interviewerId
          = Except.error (AppErr.notFound
              ("Candidate with ID " ++ "cand-9" ++ " not found in this interview."))
      ∧ lookupSucceeded (getCandidateTranscript dbDemo connDemo.interviewId "cand-9"
          connDemo.interviewerId) = false
      ∧ (sends (handleCandidateDetailsRequest dbDemo connDemo
          (Payload.mk (some "cand-9") (some "interview-2") (some "mallory"))
          ReadyState.OPEN)).all OutMessage.isError = true) :=
  ⟨rfl, rfl, rfl, rfl, by decide,
    C3_lookup_uses_bound_ids dbDemo connDemo
      (Payload.mk (some "cand-9") (some "interview-2") (some "mallory"))
      ReadyState.OPEN "cand-9" interviewDemo candOther
      rfl (by decide) rfl rfl (by decide) (by decide) rfl (by decide)⟩

/-- C4: when the token decodes to an identity different from the
interview's owning interviewer, the whole connection life consists of the
single 1008 close — in particular no `dashboard:init` (nor any other
message) is ever sent, whatever inbound frames arrive. -/
theorem C4_owner_mismatch_closes_1008 (env : Env) (cid : Nat) (t iid uid : String)
    (p : TokenPayload) (interview : Interview) (rs : ReadyState) (inbox : List RawMessage)
    (ht : t ≠ "") (hi : iid ≠ "")
    (hv : env.jwtVerify t = .returns (some p)) (hpid : p._id = some uid) (hu : uid ≠ "")
    (hf : env.db.findInterviewById iid = some interview)
    (hmm : interview.interviewerId ≠ uid) :
    session env cid (some t) (some iid) rs inbox
      = [Action.close 1008 "Unauthorized access to this interview"] := by
  have hh : handleConnection env cid (some t) (some iid) rs
      = ([Action.close 1008 "Unauthorized access to this interview"], none) := by
    simp [handleConnection, jsFalsyStr, ht, hi, getDataFromToken, hv, hpid, hu, hf, hmm]
  simp [session, hh]

/-- Witness for C4: on the demo environment, `intruder-token` decodes to
`mallory`, who does not own `interview-1`; the session is the single 1008
close. -/
theorem C4_owner_mismatch_closes_1008_witness :
    envDemo.jwtVerify "intruder-token"
        = JwtOutcome.returns (some ⟨some "mallory", none, none⟩)
    ∧ envDemo.db.findInterviewById "interview-1" = some interviewDemo
    ∧ interviewDemo.interviewerId ≠ "mallory"
    ∧ session envDemo 7 (some "intruder-token") (some "interview-1") ReadyState.OPEN
        [RawMessage.malformed]
      = [Action.close 1008 "Unauthorized access to this interview"] :=
  ⟨rfl, rfl, by decide,
    C4_owner_mismatch_closes_1008 envDemo 7 "intruder-token" "interview-1" "mallory"
      ⟨some "mallory", none, none⟩ interviewDemo ReadyState.OPEN [RawMessage.malformed]
      (by decide) (by decide) rfl rfl (by decide) rfl (by decide)⟩

/-- `sends` distributes over trace concatenation. -/
theorem sends_append (l1 l2 : List Action) : sends (l1 ++ l2) = sends l1 ++ sends l2 := by
  simp [sends]

/-- The messages sent by a guarded send. -/
theorem sends_sendIfOpen (rs : ReadyState) (msg : OutMessage) :
    sends (sendIfOpen rs msg) = if rs = ReadyState.OPEN then [msg] else [] := by
  by_cases h : rs = ReadyState.OPEN <;> simp [sendIfOpen, sends, h]

/-- Any message sent by a guarded send is the guarded message. -/
theorem mem_sends_sendIfOpen (rs : ReadyState) (msg m : OutMessage)
    (h : m ∈ sends (sendIfOpen rs msg)) : m = msg := by
  rw [sends_sendIfOpen] at h
  by_cases hrs : rs = ReadyState.OPEN
  · rw [if_pos hrs] at h
    exact List.mem_singleton.mp h
  · rw [if_neg hrs] at h
    cases h

/-- A recorded lookup invocation is not a send. -/
theorem sends_cons_lookup (interviewId candidateId interviewerId : String)
    (l : List Action) :
    sends (Action.lookupTranscript interviewId candidateId interviewerId :: l) = sends l :=
  rfl

/-- The candidate-details handler never sends a `dashboard:init`. -/
theorem handleCandidateDetails_no_init (db : Db) (conn : Conn) (payload : Payload)
    (rs : ReadyState) :
    ∀ m ∈ sends (handleCandidateDetailsRequest db conn payload rs), m.isInit = false := by
  intro m hm
  unfold handleCandidateDetailsRequest at hm
  split at hm
  · rw [mem_sends_sendIfOpen _ _ _ hm]
    rfl
  · split at hm
    · rw [mem_sends_sendIfOpen _ _ _ hm]
      rfl
    · rw [sends_cons_lookup] at hm
      split at hm
      · rw [mem_sends_sendIfOpen _ _ _ hm]
        rfl
      · rw [mem_sends_sendIfOpen _ _ _ hm]
        rfl

/-- The message listener never sends a `dashboard:init`. -/
theorem handleMessage_no_init (env : Env) (conn : Conn) (raw : RawMessage)
    (rs : ReadyState) :
    ∀ m ∈ sends (handleMessage env conn raw rs), m.isInit = false := by
  intro m hm
  cases raw with
  | malformed =>
    rw [mem_sends_sendIfOpen rs (.error "Invalid message format") m hm]
    rfl
  | parsed event payload =>
    simp only [handleMessage] at hm
    split at hm
    · exact handleCandidateDetails_no_init env.db conn payload rs m hm
    · cases hm

/-- No inbound frame processed after admission ever produces a
`dashboard:init`. -/
theorem inbox_no_init (env : Env) (conn : Conn) (rs : ReadyState)
    (inbox : List RawMessage) :
    ∀ m ∈ sends ((inbox.map (fun raw => handleMessage env conn raw rs)).flatten),
      m.isInit = false := by
  induction inbox with
  | nil =>
    intro m hm
    cases hm
  | cons raw rest ih =>
    intro m hm
    simp only [List.map_cons, List.flatten_cons] at hm
    rw [sends_append] at hm
    rcases List.mem_append.mp hm with h1 | h1
    · exact handleMessage_no_init env conn raw rs m h1
    · exact ih m h1

/-- A recorded room join is not a send. -/
theorem sends_cons_join (interviewId : String) (l : List Action) :
    sends (Action.join interviewId :: l) = sends l :=
  rfl

/-- The listener-attach marker is not a send. -/
theorem sends_cons_attach (l : List Action) :
    sends (Action.attachHandlers :: l) = sends l :=
  rfl

/-- Counterexample to C2 as stated: on a fully valid admission
(`good-token` decodes to `alice`, the owner of `interview-1`), a
malformed frame processed while the snapshot's database fetches are
pending — the listener is already attached — is answered with an `error`
send before the `dashboard:init`, so the `dashboard:init` is not sent
before every other outbound message. -/
theorem C2_error_can_precede_init :
    sends (sessionSched envDemo 3 (some "good-token") (some "interview-1")
        ReadyState.OPEN [RawMessage.malformed] [])
      = [OutMessage.error "Invalid message format",
         OutMessage.dashboardInit (interviewSummary interviewDemo)
           (buildCandidatePayload envDemo.db "interview-1" interviewDemo)] :=
  rfl

/-- C2 (amended): for a valid token and interview id whose decoded
identity matches the interview owner, admission succeeds (the bound
connection carries that identity and interview id) and exactly one
`dashboard:init` is sent; no inbound frame is processed before the
admission check completes (no listener exists on the denied branches);
but since the listeners are attached before the snapshot's database
fetches complete, replies to frames processed during that window may
precede the `dashboard:init` — it precedes every other outbound message
exactly when no frame is processed during the snapshot window. -/
theorem C2_dashboard_init_once (env : Env) (cid : Nat) (t iid uid : String)
    (p : TokenPayload) (interview : Interview) (early late : List RawMessage)
    (ht : t ≠ "") (hi : iid ≠ "")
    (hv : env.jwtVerify t = .returns (some p)) (hpid : p._id = some uid) (hu : uid ≠ "")
    (hf : env.db.findInterviewById iid = some interview)
    (howner : interview.interviewerId = uid)
    (hsf : env.snapshotFails = false) :
    (handleConnection env cid (some t) (some iid) ReadyState.OPEN).2
        = some ⟨cid, uid, iid⟩
    ∧ ∃ pre post,
        sends (sessionSched env cid (some t) (some iid) ReadyState.OPEN early late)
          = pre ++ OutMessage.dashboardInit (interviewSummary interview)
              (buildCandidatePayload env.db iid interview) :: post
        ∧ (∀ m ∈ pre, m.isInit = false)
        ∧ (∀ m ∈ post, m.isInit = false)
        ∧ (early = [] → pre = []) := by
  have hsnap : sendInitialDashboardData env iid ReadyState.OPEN
      = [Action.send (OutMessage.dashboardInit (interviewSummary interview)
          (buildCandidatePayload env.db iid interview))] := by
    simp [sendInitialDashboardData, hsf, hf, sendIfOpen]
  have hh : handleConnection env cid (some t) (some iid) ReadyState.OPEN
      = (Action.join iid :: Action.attachHandlers
          :: sendInitialDashboardData env iid ReadyState.OPEN, some ⟨cid, uid, iid⟩) := by
    simp [handleConnection, jsFalsyStr, ht, hi, getDataFromToken, hv, hpid, hu, hf, howner]
  refine ⟨by rw [hh], ?_⟩
  refine ⟨sends ((early.map
      (fun raw => handleMessage env ⟨cid, uid, iid⟩ raw ReadyState.OPEN)).flatten),
    sends ((late.map
      (fun raw => handleMessage env ⟨cid, uid, iid⟩ raw ReadyState.OPEN)).flatten),
    ?_, ?_, ?_, ?_⟩
  · simp only [sessionSched, hh, sends_cons_join, sends_cons_attach, sends_append, hsnap]
    simp [sends]
  · exact inbox_no_init env ⟨cid, uid, iid⟩ ReadyState.OPEN early
  · exact inbox_no_init env ⟨cid, uid, iid⟩ ReadyState.OPEN late
  · intro he
    rw [he]
    rfl

/-- Witness for the amended C2: on the demo environment with one
malformed frame in the snapshot window and one after it, the session
sends exactly one `dashboard:init`, flanked by non-init messages, and the
`early = []` instance gives the init first. -/
theorem C2_dashboard_init_once_witness :
    envDemo.jwtVerify "good-token" = JwtOutcome.returns (some ⟨some "alice", none, none⟩)
    ∧ envDemo.db.findInterviewById "interview-1" = some interviewDemo
    ∧ interviewDemo.interviewerId = "alice"
    ∧ envDemo.snapshotFails = false
    ∧ ((handleConnection envDemo 3 (some "good-token") (some "interview-1")
          ReadyState.OPEN).2 = some ⟨3, "alice", "interview-1"⟩
      ∧ ∃ pre post,
          sends (sessionSched envDemo 3 (some "good-token") (some "interview-1")
              ReadyState.OPEN [RawMessage.malformed] [RawMessage.malformed])
            = pre ++ OutMessage.dashboardInit (interviewSummary interviewDemo)
                (buildCandidatePayload envDemo.db "interview-1" interviewDemo) :: post
          ∧ (∀ m ∈ pre, m.isInit = false)
          ∧ (∀ m ∈ post, m.isInit = false)
          ∧ ([RawMessage.malformed] = ([] : List RawMessage) → pre = [])) :=
  ⟨rfl, rfl, rfl, rfl,
    C2_dashboard_init_once envDemo 3 "good-token" "interview-1" "alice"
      ⟨some "alice", none, none⟩ interviewDemo [RawMessage.malformed] [RawMessage.malformed]
      (by decide) (by decide) rfl rfl (by decide) rfl rfl rfl⟩

/-- A member of `setAdd` is an old member or the added connection. -/
theorem mem_setAdd (room : List Conn) (ws c : Conn) (h : c ∈ setAdd room ws) :
    c ∈ room ∨ c = ws := by
  unfold setAdd at h
  by_cases hw : ws ∈ room
  · rw [if_pos hw] at h
    exact .inl h
  · rw [if_neg hw] at h
    rcases List.mem_append.mp h with h1 | h1
    · exact .inl h1
    · exact .inr (List.mem_singleton.mp h1)

/-- A found room comes from an entry of the registry with that key. -/
theorem roomsFind_some (rooms : Registry) (interviewId : String) (room : List Conn)
    (h : roomsFind rooms interviewId = some room) :
    ∃ kv0 ∈ rooms, kv0.1 = interviewId ∧ kv0.2 = room := by
  unfold roomsFind at h
  cases hfind : rooms.find? (fun kv => kv.1 = interviewId) with
  | none =>
    rw [hfind] at h
    cases h
  | some kv0 =>
    rw [hfind] at h
    have h1 : kv0.2 = room := by simpa using h
    have h2 : kv0 ∈ rooms := List.mem_of_find?_eq_some hfind
    have h3 := List.find?_some hfind
    simp only [decide_eq_true_eq] at h3
    exact ⟨kv0, h2, h3, h1⟩

/-- A member of a registry entry after `joinRoom` was already a member of
an entry with the same key, or is the joining connection placed under its
own interview id. -/
theorem mem_joinRoom (rooms : Registry) (interviewId : String) (ws : Conn)
    (kv : String × List Conn) (c : Conn)
    (hkv : kv ∈ joinRoom rooms interviewId ws) (hc : c ∈ kv.2) :
    (∃ kv0 ∈ rooms, kv0.1 = kv.1 ∧ c ∈ kv0.2) ∨ (kv.1 = interviewId ∧ c = ws) := by
  cases hf : roomsFind rooms interviewId with
  | none =>
    simp only [joinRoom, hf] at hkv
    rcases List.mem_append.mp hkv with h1 | h1
    · exact .inl ⟨kv, h1, rfl, hc⟩
    · have h2 := List.mem_singleton.mp h1
      rw [h2] at hc ⊢
      refine .inr ⟨rfl, ?_⟩
      have h3 : c ∈ [ws] := by simpa [setAdd] using hc
      exact List.mem_singleton.mp h3
  | some room =>
    simp only [joinRoom, hf, roomsSet] at hkv
    obtain ⟨kv', hkv', heq⟩ := List.mem_map.mp hkv
    by_cases hk : kv'.1 = interviewId
    · rw [if_pos hk] at heq
      rw [← heq] at hc ⊢
      rcases mem_setAdd room ws c hc with h1 | h1
      · obtain ⟨kv0, hkv0, hkey, hval⟩ := roomsFind_some rooms interviewId room hf
        refine .inl ⟨kv0, hkv0, by simp [hkey], ?_⟩
        rw [hval]
        exact h1
      · exact .inr ⟨rfl, h1⟩
    · rw [if_neg hk] at heq
      rw [← heq] at hc ⊢
      exact .inl ⟨kv', hkv', rfl, hc⟩

/-- A member of a registry entry after `leaveRoom` was already a member of
an entry with the same key. -/
theorem mem_leaveRoom (rooms : Registry) (interviewId : String) (ws : Conn)
    (kv : String × List Conn) (c : Conn)
    (hkv : kv ∈ leaveRoom rooms interviewId ws) (hc : c ∈ kv.2) :
    ∃ kv0 ∈ rooms, kv0.1 = kv.1 ∧ c ∈ kv0.2 := by
  cases hf : roomsFind rooms interviewId with
  | none =>
    simp only [leaveRoom, hf] at hkv
    exact ⟨kv, hkv, rfl, hc⟩
  | some room =>
    simp only [leaveRoom, hf] at hkv
    by_cases hz : (setDelete room ws).length = 0
    · rw [if_pos hz] at hkv
      exact ⟨kv, (List.mem_filter.mp hkv).1, rfl, hc⟩
    · rw [if_neg hz] at hkv
      simp only [roomsSet] at hkv
      obtain ⟨kv', hkv', heq⟩ := List.mem_map.mp hkv
      by_cases hk : kv'.1 = interviewId
      · rw [if_pos hk] at heq
        rw [← heq] at hc ⊢
        obtain ⟨kv0, hkv0, hkey, hval⟩ := roomsFind_some rooms interviewId room hf
        refine ⟨kv0, hkv0, by simp [hkey], ?_⟩
        rw [hval]
        exact List.mem_of_mem_filter hc
      · rw [if_neg hk] at heq
        rw [← heq] at hc ⊢
        exact ⟨kv', hkv', rfl, hc⟩

/-- Inversion of admission: a connection returned by `handleConnection`
passed the whole check chain, so the interview it is bound to exists and
is owned by the identity it is bound to. -/
theorem handleConnection_admitted (env : Env) (cid : Nat)
    (token? interviewId? : Option String) (rs : ReadyState) (conn : Conn)
    (h : (handleConnection env cid token? interviewId? rs).2 = some conn) :
    ∃ interview, env.db.findInterviewById conn.interviewId = some interview
      ∧ interview.interviewerId = conn.interviewerId := by
  cases token? with
  | none => simp [handleConnection, jsFalsyStr] at h
  | some t =>
    cases interviewId? with
    | none => simp [handleConnection, jsFalsyStr] at h
    | some iid =>
      by_cases ht : t = ""
      · simp [handleConnection, jsFalsyStr, ht] at h
      · by_cases hi : iid = ""
        · simp [handleConnection, jsFalsyStr, hi] at h
        · cases hv : env.jwtVerify t with
          | throws =>
            simp [handleConnection, jsFalsyStr, ht, hi, getDataFromToken, hv] at h
          | returns dec =>
            cases dec with
            | none =>
              simp [handleConnection, jsFalsyStr, ht, hi, getDataFromToken, hv] at h
            | some p =>
              cases hpid : p._id with
              | none =>
                simp [handleConnection, jsFalsyStr, ht, hi, getDataFromToken, hv,
                  hpid] at h
              | some uid =>
                by_cases hu : uid = ""
                · simp [handleConnection, jsFalsyStr, ht, hi, getDataFromToken, hv,
                    hpid, hu] at h
                · cases hf : env.db.findInterviewById iid with
                  | none =>
                    simp [handleConnection, jsFalsyStr, ht, hi, getDataFromToken, hv,
                      hpid, hu, hf] at h
                  | some interview =>
                    by_cases hown : interview.interviewerId = uid
                    · have hred : (handleConnection env cid (some t) (some iid) rs).2
                          = some ⟨cid, uid, iid⟩ := by
                        simp [handleConnection, jsFalsyStr, ht, hi, getDataFromToken,
                          hv, hpid, hu, hf, hown]
                      rw [hred] at h
                      have h2 := Option.some.inj h
                      rw [← h2]
                      exact ⟨interview, hf, hown⟩
                    · simp [handleConnection, jsFalsyStr, ht, hi, getDataFromToken, hv,
                        hpid, hu, hf, hown] at h

/-- One system step preserves the admission invariant of the registry. -/
theorem sysStep_preserves_inv (env : Env) (rooms : Registry) (e : SysEvent)
    (h : ∀ kv ∈ rooms, ∀ c ∈ kv.2, c.interviewId = kv.1
      ∧ ∃ interview, env.db.findInterviewById kv.1 = some interview
        ∧ interview.interviewerId = c.interviewerId) :
    ∀ kv ∈ sysStep env rooms e, ∀ c ∈ kv.2, c.interviewId = kv.1
      ∧ ∃ interview, env.db.findInterviewById kv.1 = some interview
        ∧ interview.interviewerId = c.interviewerId := by
  intro kv hkv c hc
  cases e with
  | disconnect ws =>
    simp only [sysStep] at hkv
    obtain ⟨kv0, hkv0, hkey, hc0⟩ := mem_leaveRoom rooms ws.interviewId ws kv c hkv hc
    have h0 := h kv0 hkv0 c hc0
    rw [hkey] at h0
    exact h0
  | connect cid token? interviewId? rs =>
    cases hadm : (handleConnection env cid token? interviewId? rs).2 with
    | none =>
      simp only [sysStep, hadm] at hkv
      exact h kv hkv c hc
    | some conn =>
      simp only [sysStep, hadm] at hkv
      rcases mem_joinRoom rooms conn.interviewId conn kv c hkv hc with
        ⟨kv0, hkv0, hkey, hc0⟩ | ⟨hkey, hcw⟩
      · have h0 := h kv0 hkv0 c hc0
        rw [hkey] at h0
        exact h0
      · obtain ⟨interview, hfind, hown⟩ :=
          handleConnection_admitted env cid token? interviewId? rs conn hadm
        rw [hcw, hkey]
        exact ⟨rfl, interview, hfind, hown⟩

/-- Folding system events from an invariant-satisfying registry keeps the
admission invariant. -/
theorem foldl_sysStep_inv (env : Env) (events : List SysEvent) :
    ∀ rooms : Registry,
      (∀ kv ∈ rooms, ∀ c ∈ kv.2, c.interviewId = kv.1
        ∧ ∃ interview, env.db.findInterviewById kv.1 = some interview
          ∧ interview.interviewerId = c.interviewerId) →
      ∀ kv ∈ events.foldl (sysStep env) rooms, ∀ c ∈ kv.2, c.interviewId = kv.1
        ∧ ∃ interview, env.db.findInterviewById kv.1 = some interview
          ∧ interview.interviewerId = c.interviewerId := by
  induction events with
  | nil =>
    intro rooms h kv hkv
    exact h kv hkv
  | cons e rest ih =>
    intro rooms h kv hkv
    simp only [List.foldl_cons] at hkv
    exact ih (sysStep env rooms e) (sysStep_preserves_inv env rooms e h) kv hkv

/-- C9: after any sequence of connection events from startup, every
connection stored in any room has passed the full admission check: its
bound interview id is the room's key, the interview exists in the
database, and its bound interviewer id is the interview's owner.
Connections that fail any admission step are never added. -/
theorem C9_registry_members_admitted (env : Env) (events : List SysEvent) :
    ∀ kv ∈ sysRun env events, ∀ c ∈ kv.2, c.interviewId = kv.1
      ∧ ∃ interview, env.db.findInterviewById kv.1 = some interview
        ∧ interview.interviewerId = c.interviewerId := by
  intro kv hkv c hc
  have hstart : ∀ kv ∈ ([] : Registry), ∀ c ∈ kv.2, c.interviewId = kv.1
      ∧ ∃ interview, env.db.findInterviewById kv.1 = some interview
        ∧ interview.interviewerId = c.interviewerId := by
    intro kv h0
    simp at h0
  exact foldl_sysStep_inv env events [] hstart kv hkv c hc

/-- Witness for C9: after one successful connection on the demo
environment, the stored connection is bound to the room key and the
interview owner. -/
theorem C9_registry_members_admitted_witness :
    (("interview-1", [(⟨3, "alice", "interview-1"⟩ : Conn)])
        ∈ sysRun envDemo [SysEvent.connect 3 (some "good-token") (some "interview-1")
            ReadyState.OPEN])
    ∧ ((⟨3, "alice", "interview-1"⟩ : Conn).interviewId = "interview-1"
      ∧ ∃ interview, envDemo.db.findInterviewById "interview-1" = some interview
        ∧ interview.interviewerId = (⟨3, "alice", "interview-1"⟩ : Conn).interviewerId) :=
  ⟨by decide,
    C9_registry_members_admitted envDemo
      [SysEvent.connect 3 (some "good-token") (some "interview-1") ReadyState.OPEN]
      ("interview-1", [⟨3, "alice", "interview-1"⟩]) (by decide)
      ⟨3, "alice", "interview-1"⟩ (by decide)⟩

/-- The snapshot builder sends nothing on a non-open connection. -/
theorem snapshot_sends_nil (env : Env) (interviewId : String) (rs : ReadyState)
    (h : rs ≠ ReadyState.OPEN) :
    sends (sendInitialDashboardData env interviewId rs) = [] := by
  unfold sendInitialDashboardData
  split
  · rw [sends_sendIfOpen, if_neg h]
  · split
    · rfl
    · rw [sends_sendIfOpen, if_neg h]

/-- The candidate-details handler sends nothing on a non-open
connection. -/
theorem hcdr_sends_nil (db : Db) (conn : Conn) (payload : Payload) (rs : ReadyState)
    (h : rs ≠ ReadyState.OPEN) :
    sends (handleCandidateDetailsRequest db conn payload rs) = [] := by
  unfold handleCandidateDetailsRequest
  split
  · rw [sends_sendIfOpen, if_neg h]
  · split
    · rw [sends_sendIfOpen, if_neg h]
    · rw [sends_cons_lookup]
      split
      · rw [sends_sendIfOpen, if_neg h]
      · rw [sends_sendIfOpen, if_neg h]

/-- The message listener sends nothing on a non-open connection. -/
theorem handleMessage_sends_nil (env : Env) (conn : Conn) (raw : RawMessage)
    (rs : ReadyState) (h : rs ≠ ReadyState.OPEN) :
    sends (handleMessage env conn raw rs) = [] := by
  cases raw with
  | malformed =>
    simp only [handleMessage]
    rw [sends_sendIfOpen, if_neg h]
  | parsed event payload =>
    simp only [handleMessage]
    split
    · exact hcdr_sends_nil env.db conn payload rs h
    · rfl

/-- C10: every outbound send — the `dashboard:init` of the snapshot
builder, the `response:candidate_details`/`error` of the details handler,
and the `error` of the message listener — is performed only when the
connection's readyState is OPEN: on any other readyState these handlers
send nothing at all. -/
theorem C10_sends_only_when_open (env : Env) (interviewId : String) (conn : Conn)
    (payload : Payload) (raw : RawMessage) (rs : ReadyState)
    (h : rs ≠ ReadyState.OPEN) :
    sends (sendInitialDashboardData env interviewId rs) = []
    ∧ sends (handleCandidateDetailsRequest env.db conn payload rs) = []
    ∧ sends (handleMessage env conn raw rs) = [] :=
  ⟨snapshot_sends_nil env interviewId rs h,
    hcdr_sends_nil env.db conn payload rs h,
    handleMessage_sends_nil env conn raw rs h⟩

/-- Witness for C10 on a closing connection in the demo environment. -/
theorem C10_sends_only_when_open_witness :
    (ReadyState.CLOSED ≠ ReadyState.OPEN)
    ∧ (sends (sendInitialDashboardData envDemo "interview-1" ReadyState.CLOSED) = []
      ∧ sends (handleCandidateDetailsRequest envDemo.db connDemo
          (Payload.mk (some "cand-1") none none) ReadyState.CLOSED) = []
      ∧ sends (handleMessage envDemo connDemo RawMessage.malformed ReadyState.CLOSED)
          = []) :=
  ⟨by decide,
    C10_sends_only_when_open envDemo "interview-1" connDemo
      (Payload.mk (some "cand-1") none none) RawMessage.malformed ReadyState.CLOSED
      (by decide)⟩

end InterviewBit
